import Mathlib

/-!
Verification development for the mailbot repository: a shallow embedding of
the reconciliation loop (`main.py`), the mailbox session primitives
(`imap_client.py`), the classifier gateway (`gemini_client.py`), the
identity store (`processed_uids.py`) and the per-message processor
(`email_processor.py`), together with proofs of the behavioural properties
stated in the specification.

Message identifiers (IMAP UIDs) are opaque strings in the source; we model
them as `List Char` so that file contents (raw character sequences) and the
identifiers parsed out of them live in one type.
-/

namespace Mailbot

/-- Message identifiers (IMAP UIDs, decoded to strings in the source). -/
abbrev Uid := List Char

/-! ## Generic character-sequence helpers

Python's file-line iteration, `str.strip()` and `str.split()` are modelled
over `List Char`. -/

/-- Split a character sequence at every character satisfying `p`, keeping
empty segments (so a trailing separator yields a trailing empty segment,
exactly as Python's line iteration yields no extra line after a final
newline only once the empty tail is filtered). -/
def splitOnP (p : Char → Bool) : List Char → List (List Char)
  | [] => [[]]
  | c :: rest =>
    if p c then [] :: splitOnP p rest
    else (splitOnP p rest).modifyHead (c :: ·)

/-- Splitting on newline characters: the segments of Python's
`for line in f` before each line's trailing newline is stripped. -/
def splitNl : List Char → List (List Char) := splitOnP (· = '\n')

/-- Python `str.strip()`: drop whitespace from both ends. -/
def pyStrip (l : List Char) : List Char :=
  ((l.dropWhile Char.isWhitespace).reverse.dropWhile Char.isWhitespace).reverse

/-- Python `str.split()` with no separator: split on whitespace runs,
discarding empty segments. -/
def pySplitWs (l : List Char) : List (List Char) :=
  (splitOnP Char.isWhitespace l).filter (· ≠ [])

theorem splitOnP_ne_nil (p : Char → Bool) (l : List Char) : splitOnP p l ≠ [] := by
  cases l with
  | nil => simp [splitOnP]
  | cons c rest =>
    simp only [splitOnP]
    split
    · simp
    · cases h : splitOnP p rest with
      | nil => exact absurd h (splitOnP_ne_nil p rest)
      | cons a as => simp [List.modifyHead]

/-- A sequence with no newline is a single line. -/
theorem splitNl_no_newline (u : List Char) (h : '\n' ∉ u) : splitNl u = [u] := by
  induction u with
  | nil => rfl
  | cons c rest ih =>
    simp only [List.mem_cons, not_or] at h
    simp only [splitNl, splitOnP] at *
    rw [if_neg (by simpa using fun hc => h.1 hc.symm), ih h.2]
    rfl

/-- Splitting distributes over a newline-separated concatenation. -/
theorem splitNl_append (a b : List Char) :
    splitNl (a ++ '\n' :: b) = splitNl a ++ splitNl b := by
  induction a with
  | nil => simp [splitNl, splitOnP]
  | cons c rest ih =>
    simp only [splitNl, splitOnP, List.cons_append] at *
    split
    · simp [ih]
    · rw [show rest.append ('\n' :: b) = rest ++ '\n' :: b from rfl, ih]
      cases h : splitOnP (· = '\n') rest with
      | nil => exact absurd h (splitOnP_ne_nil _ rest)
      | cons x xs => simp [List.modifyHead]

/-! ## Identity Store (`processed_uids.py`)

State of the store: the in-memory cache (`_processed_uids_cache`, a Python
set, modelled as a list with membership semantics) and the durable log
(`processed_uids.txt`, modelled as the list of appended lines). -/

structure UidStore where
  cache : List Uid
  file : List Uid
  deriving DecidableEq, Repr

/-- `is_uid_processed(uid)` — membership test in the in-memory cache
(`processed_uids.py` lines 35-37). -/
def is_uid_processed (s : UidStore) (uid : Uid) : Bool :=
  s.cache.contains uid

/-- `_add_uid_to_file(uid)` (`processed_uids.py` lines 26-33): appends one
line to the durable log.  An `IOError` (modelled by `appendOk = false`) is
caught and only logged, leaving the file unchanged. -/
def addUidToFile (appendOk : Bool) (uid : Uid) (s : UidStore) : UidStore :=
  if appendOk then { s with file := s.file ++ [uid] } else s

/-- `mark_uid_as_processed(uid)` (`processed_uids.py` lines 39-46).
If the uid is not in the cache, the code first adds it to the in-memory
cache and then appends it to the file; otherwise it does nothing.
Returns the new state together with the number of file writes attempted
(the code performs exactly one append in the first branch and none in the
second). -/
def mark_uid_as_processed (appendOk : Bool) (uid : Uid) (s : UidStore) :
    UidStore × Nat :=
  if s.cache.contains uid then (s, 0)
  else (addUidToFile appendOk uid { s with cache := uid :: s.cache }, 1)

/-- `load_processed_uids()` (`processed_uids.py` lines 11-24): if the file
is missing (`none`) the cache stays empty; otherwise each line is stripped
and added when non-empty.  Python's `for line in f` yields every maximal
newline-terminated chunk and also the final unterminated chunk, which is
exactly `splitNl` after filtering the empty tail. -/
def load_processed_uids (content : Option (List Char)) : List Uid :=
  match content with
  | none => []
  | some c => ((splitNl c).map pyStrip).filter (· ≠ [])

/-- Python `str.strip()` on a `String`, via its character list (used for
`response.text.strip()` in the classifier). -/
def pyStripS (s : String) : String := ⟨pyStrip s.data⟩

/-! ## Configuration (`config.py`) -/

/-- `SOURCE_INBOX` (`config.py` line 21). -/
def SOURCE_INBOX : String := "INBOX"

/-- `VALID_CATEGORIES` (`config.py` line 29). -/
def VALID_CATEGORIES : List String := ["Personal", "Spam", "Accounts", "Promotions"]

/-- `FOLDER_MAPPING` (`config.py` lines 23-28) as `dict.get`: `some` of the
mapped folder for the four configured categories, `none` otherwise. -/
def FOLDER_MAPPING : String → Option String := fun category =>
  if category = "Personal" then some SOURCE_INBOX
  else if category = "Spam" then some "INBOX.spam"
  else if category = "Accounts" then some "Accounts"
  else if category = "Promotions" then some "Junk"
  else none

/-! ## Classifier Gateway (`gemini_client.py`)

The external call `gemini_model.generate_content(prompt)` is opaque: its
outcome for the message at hand is an oracle value — either it raises
(any exception: network, quota, malformed response) or it returns a
response whose `.text` is a free-form string. -/

/-- Outcome of the external `generate_content` call. -/
inductive GeminiResult where
  | success (text : String)
  | failure
  deriving DecidableEq, Repr

/-- `classify_email_with_gemini(sender, subject, body)` (`gemini_client.py`
lines 70-101).  `modelInit` is whether the global `gemini_model` is set.
Returns the category string together with whether the external call was
made.  The body is truncated to `MAX_BODY_CHARS_FOR_GEMINI` only to build
the prompt, which does not affect the returned category, so the prompt is
not modelled.  `not subject and not body` on strings is the two-empties
test. -/
def classify_email_with_gemini (modelInit : Bool) (sender subject body : String)
    (callResult : GeminiResult) : String × Bool :=
  if !modelInit then ("Promotions", false)
  else if subject = "" && body = "" then ("Promotions", false)
  else
    match callResult with
    | .success text =>
      let category := pyStripS text
      if category ∈ VALID_CATEGORIES then (category, true)
      else ("Promotions", true)
    | .failure => ("Promotions", true)

/-! ## Mailbox Session primitives (`imap_client.py`) -/

/-- Outcome of one `imaplib` command: either it returns with a status
string (the first component of the `(typ, data)` pair), or it raises.
`connFatal` records whether the raised exception is a connection-fatal one
(`imaplib.IMAP4.abort` / broken transport) as opposed to any other
exception; the code catches both alike, which the proofs make explicit. -/
inductive StepOutcome where
  | ret (status : String)
  | raise (connFatal : Bool)
  deriving DecidableEq, Repr

/-- Observable side effects issued on the IMAP session (and the classifier
call and rate-limit sleep) while processing one message. -/
inductive Effect where
  | fetch
  | unsetSeen
  | geminiCall
  | copyEff
  | storeDeletedEff
  | expungeEff
  | sleep
  deriving DecidableEq, Repr

/-- The server's responses to the three steps of a move: `uid('copy', ...)`,
`uid('store', uid, '+FLAGS', '\Deleted')`, `expunge()`. -/
structure MoveConn where
  copyOutcome : StepOutcome
  storeDeletedOutcome : StepOutcome
  expungeOutcome : StepOutcome
  deriving DecidableEq, Repr

/-- `move_email(mail_connection, uid, destination_folder_name)`
(`imap_client.py` lines 135-172).  Returns the boolean result together
with the list of commands actually issued.  A `None` connection returns
`False` immediately with nothing issued.  Each step is issued only after
the previous one returned `'OK'`; a raised exception (connection-fatal or
not) is caught by the surrounding `except` clauses and yields `False`. -/
def move_email (conn : Option MoveConn) : Bool × List Effect :=
  match conn with
  | none => (false, [])
  | some c =>
    match c.copyOutcome with
    | .raise _ => (false, [.copyEff])
    | .ret s₁ =>
      if s₁ = "OK" then
        match c.storeDeletedOutcome with
        | .raise _ => (false, [.copyEff, .storeDeletedEff])
        | .ret s₂ =>
          if s₂ = "OK" then
            match c.expungeOutcome with
            | .raise _ => (false, [.copyEff, .storeDeletedEff, .expungeEff])
            | .ret s₃ =>
              (decide (s₃ = "OK"), [.copyEff, .storeDeletedEff, .expungeEff])
          else (false, [.copyEff, .storeDeletedEff])
      else (false, [.copyEff])

/-- `get_new_email_uids(mail_connection)` (`imap_client.py` lines 108-130):
`typ, data = mail_connection.uid('search', None, 'UNSEEN')`; if `typ` is
not `'OK'` the empty list is returned, otherwise `data[0].split()` (split
on whitespace, empty chunks dropped), each chunk decoded to a string. -/
def get_new_email_uids (typ : String) (data₀ : List Char) : List Uid :=
  if typ ≠ "OK" then []
  else pySplitWs data₀

/-! ## Per-message processing (`email_processor.py`) -/

/-- The decoded headers and plain-text body of one message, as produced by
`decode_email_header` / `get_email_body` from one tuple response part. -/
structure Msg where
  sender : String
  subject : String
  body : String
  deriving DecidableEq, Repr

/-- Environment of one `process_single_email(mail_connection, uid)` call:
the server's and collaborators' responses to every request the code can
issue for this uid. -/
structure ProcEnv where
  /-- Outcome of `uid('fetch', uid, '(RFC822 BODY.PEEK[])')`. -/
  fetchOutcome : StepOutcome
  /-- Whether the follow-up `uid('store', uid, '-FLAGS', '\Seen')` raises.
  The code catches and only logs this either way (lines 28-33), so it has
  no behavioural effect — which the proofs rely on being modelled. -/
  unsetSeenRaises : Bool
  /-- The response parts in `msg_data`: `some` for a tuple part carrying a
  message, `none` for a non-tuple part (skipped by the isinstance check). -/
  parts : List (Option Msg)
  /-- Whether the global `gemini_model` is initialized. -/
  geminiInit : Bool
  /-- Outcome of the external classification call for this message. -/
  geminiResult : GeminiResult
  /-- Outcomes of the three move steps, if a move is issued. -/
  copyOutcome : StepOutcome
  storeDeletedOutcome : StepOutcome
  expungeOutcome : StepOutcome
  deriving Repr

/-- The first tuple part of `msg_data`: the `for response_part in msg_data`
loop skips non-tuples and returns out of the loop on the first tuple. -/
def firstTuplePart : List (Option Msg) → Option Msg
  | [] => none
  | some m :: _ => some m
  | none :: rest => firstTuplePart rest

/-- `process_single_email(mail_connection, uid)` (`email_processor.py`
lines 12-80).  Returns the boolean result together with the trace of
effects issued, in order:
* fetch; a raised exception (connection-fatal or not) is caught and yields
  `False` (lines 14-21), as does a non-`'OK'` status (lines 23-25);
* the explicit `-FLAGS \Seen` store (lines 28-33), its own failure ignored;
* on the first tuple part: decode, classify, look up the destination
  folder; an unmapped category returns `True` without moving (lines 52-55);
  a destination equal to `SOURCE_INBOX` does nothing further (lines 57-58);
  otherwise `move_email`, whose failure returns `False` (lines 60-64);
* the inter-message `time.sleep(PROCESS_DELAY_SECONDS)` and `return True`
  (lines 66-68);
* no tuple part at all falls through to the final `return False`. -/
def process_single_email (env : ProcEnv) : Bool × List Effect :=
  match env.fetchOutcome with
  | .raise _ => (false, [.fetch])
  | .ret status =>
    if status ≠ "OK" then (false, [.fetch])
    else
      let fx₀ : List Effect := [.fetch, .unsetSeen]
      match firstTuplePart env.parts with
      | none => (false, fx₀)
      | some msg =>
        let r := classify_email_with_gemini env.geminiInit
          msg.sender msg.subject msg.body env.geminiResult
        let fx₁ := fx₀ ++ (if r.2 then [Effect.geminiCall] else [])
        match FOLDER_MAPPING r.1 with
        | none => (true, fx₁)
        | some dest =>
          if dest = SOURCE_INBOX then (true, fx₁ ++ [.sleep])
          else
            let mv := move_email
              (some ⟨env.copyOutcome, env.storeDeletedOutcome, env.expungeOutcome⟩)
            if mv.1 then (true, fx₁ ++ mv.2 ++ [.sleep])
            else (false, fx₁ ++ mv.2)

/-! ## Reconciliation loop batch (`main.py`)

The per-cycle `for uid in unseen_email_uids` loop (`main.py` lines
105-119): a uid already in the identity store is skipped with no request
issued; otherwise `process_single_email` runs and the uid is marked
processed exactly when it returned `True`.  Nothing in the loop body can
raise (`process_single_email` catches every exception internally and
`mark_uid_as_processed` swallows `IOError`), so the batch always runs to
its end on the same session; only an exception escaping to the top-level
handler (lines 126-129) discards the session. -/

/-- One batch of the reconciliation loop over the unseen uid list.
`envOf uid` gives the server/collaborator responses for `uid`,
`appendOk uid` whether the durable append for `uid` succeeds.  Returns the
final identity-store state and the trace of attempted uids with their
result and issued effects (skipped uids do not appear). -/
def runBatch (envOf : Uid → ProcEnv) (appendOk : Uid → Bool)
    (s : UidStore) : List Uid → UidStore × List (Uid × Bool × List Effect)
  | [] => (s, [])
  | uid :: rest =>
    if is_uid_processed s uid then runBatch envOf appendOk s rest
    else
      let r := process_single_email (envOf uid)
      let s' := if r.1 then (mark_uid_as_processed (appendOk uid) uid s).1 else s
      let rec' := runBatch envOf appendOk s' rest
      (rec'.1, (uid, r.1, r.2) :: rec'.2)

/-! ## Concrete environments (used to evaluate the model on closed inputs) -/

/-- A message that classifies to `Personal`, whose mapped folder is the
source inbox. -/
def msgStayEx : Msg := ⟨"mom@example.com", "Dinner Sunday?", "Can you come over?"⟩

/-- A healthy session where the classifier answers `Personal`. -/
def envStayEx : ProcEnv :=
  ⟨.ret "OK", false, [some msgStayEx], true, .success "Personal",
   .ret "OK", .ret "OK", .ret "OK"⟩

/-- A message that classifies to `Spam` (mapped to `INBOX.spam`). -/
def msgSpamEx : Msg := ⟨"promo@shop.example", "Sale", "Buy now"⟩

/-- A session where the classifier answers `Spam` but the copy step of the
move is rejected by the server with status `NO`. -/
def envMoveCopyFailEx : ProcEnv :=
  ⟨.ret "OK", false, [some msgSpamEx], true, .success "Spam",
   .ret "NO", .ret "OK", .ret "OK"⟩

/-- A session where the fetch raises a connection-fatal exception
(`imaplib.IMAP4.abort`). -/
def envFetchAbortEx : ProcEnv :=
  ⟨.raise true, false, [some msgSpamEx], true, .success "Spam",
   .ret "OK", .ret "OK", .ret "OK"⟩

/-- A batch environment in which processing uid `1` hits a connection-fatal
error and every other uid processes normally. -/
def cexBatchEnv : Uid → ProcEnv := fun uid =>
  if uid = ['1'] then envFetchAbortEx else envStayEx

/-! ## Shared lemmas about the identity store and the batch loop -/

theorem is_uid_processed_iff (s : UidStore) (uid : Uid) :
    is_uid_processed s uid = true ↔ uid ∈ s.cache :=
  List.elem_iff

theorem mark_mem_self (ap : Bool) (uid : Uid) (s : UidStore) :
    uid ∈ (mark_uid_as_processed ap uid s).1.cache := by
  unfold mark_uid_as_processed
  split
  · exact List.elem_iff.mp (by assumption)
  · unfold addUidToFile
    split <;> simp

theorem mark_cache_mono (ap : Bool) (uid i : Uid) (s : UidStore)
    (h : i ∈ s.cache) : i ∈ (mark_uid_as_processed ap uid s).1.cache := by
  unfold mark_uid_as_processed
  split
  · exact h
  · unfold addUidToFile
    split <;> simp [h]

theorem runBatch_cache_mono (envOf : Uid → ProcEnv) (ap : Uid → Bool)
    (uids : List Uid) (s : UidStore) (i : Uid) (h : i ∈ s.cache) :
    i ∈ (runBatch envOf ap s uids).1.cache := by
  induction uids generalizing s with
  | nil => exact h
  | cons uid rest ih =>
    unfold runBatch
    split
    · exact ih s h
    · exact ih _ (by split <;> [exact mark_cache_mono _ _ _ _ h; exact h])

theorem runBatch_cache_origin (envOf : Uid → ProcEnv) (ap : Uid → Bool)
    (uids : List Uid) (s : UidStore) (i : Uid)
    (h : i ∈ (runBatch envOf ap s uids).1.cache) :
    i ∈ s.cache ∨ (process_single_email (envOf i)).1 = true := by
  induction uids generalizing s with
  | nil => exact Or.inl h
  | cons uid rest ih =>
    unfold runBatch at h
    split at h
    · exact ih s h
    · rcases ih _ h with h' | h'
      · revert h'
        split
        · rename_i hok
          unfold mark_uid_as_processed addUidToFile
          split
          · exact fun h' => Or.inl h'
          · split <;>
            · intro h'
              rcases List.mem_cons.mp h' with rfl | h'
              · exact Or.inr hok
              · exact Or.inl h'
        · exact fun h' => Or.inl h'
      · exact Or.inr h'

theorem move_email_success_iff_aux (c : MoveConn) :
    (move_email (some c)).1 = true ↔
      c.copyOutcome = .ret "OK" ∧ c.storeDeletedOutcome = .ret "OK"
        ∧ c.expungeOutcome = .ret "OK" := by
  rcases c with ⟨co, so, eo⟩
  rcases co with s₁ | b₁
  · by_cases h₁ : s₁ = "OK"
    · subst h₁
      rcases so with s₂ | b₂
      · by_cases h₂ : s₂ = "OK"
        · subst h₂
          rcases eo with s₃ | b₃ <;> simp [move_email]
        · simp [move_email, h₂]
      · simp [move_email]
    · simp [move_email, h₁]
  · simp [move_email]

theorem move_email_copy_fail_aux (c : MoveConn) (h : c.copyOutcome ≠ .ret "OK") :
    move_email (some c) = (false, [.copyEff]) := by
  rcases c with ⟨co, so, eo⟩
  rcases co with s₁ | b₁
  · have hs : s₁ ≠ "OK" := fun he => h (by rw [he])
    simp [move_email, hs]
  · rfl

theorem process_fetch_raise_aux (env : ProcEnv) (b : Bool)
    (h : env.fetchOutcome = .raise b) :
    process_single_email env = (false, [.fetch]) := by
  unfold process_single_email
  split <;> simp_all

/-- Evaluation of `process_single_email` past the fetch and the unseen
restore, once the fetch returned `'OK'` and the first tuple part carries
`msg`. -/
theorem process_classified_aux (env : ProcEnv) (msg : Msg)
    (hf : env.fetchOutcome = .ret "OK")
    (hm : firstTuplePart env.parts = some msg) :
    process_single_email env =
      (let r := classify_email_with_gemini env.geminiInit
        msg.sender msg.subject msg.body env.geminiResult
       let fx₁ := [Effect.fetch, Effect.unsetSeen]
         ++ (if r.2 then [Effect.geminiCall] else [])
       match FOLDER_MAPPING r.1 with
       | none => (true, fx₁)
       | some dest =>
         if dest = SOURCE_INBOX then (true, fx₁ ++ [.sleep])
         else
           let mv := move_email
             (some ⟨env.copyOutcome, env.storeDeletedOutcome, env.expungeOutcome⟩)
           if mv.1 then (true, fx₁ ++ mv.2 ++ [.sleep])
           else (false, fx₁ ++ mv.2)) := by
  unfold process_single_email
  rw [hf, hm]
  simp

/-! ## Claim C2 — ordering of durable append vs. in-memory commit -/

/-- C2 counterexample: `mark_uid_as_processed` adds the uid to the
in-memory cache first and then attempts the durable append; when the
append raises `IOError` (caught and only logged, `processed_uids.py`
lines 32-33), the uid is committed in memory while the durable log lacks
it — contradicting the claim that `contains(id)` never returns true while
the durable log lacks `id`. -/
theorem mark_memory_first_cex :
    is_uid_processed (mark_uid_as_processed false ['7'] ⟨[], []⟩).1 ['7'] = true
    ∧ ['7'] ∉ (mark_uid_as_processed false ['7'] ⟨[], []⟩).1.file := by
  decide

/-- C2 amended: for a uid not yet in the store, `mark_uid_as_processed`
commits the uid to the in-memory mirror unconditionally (before and
regardless of the durable append), and a failed durable append leaves the
log without the uid while `is_uid_processed` already reports it
processed — best-effort durability, memory-first ordering. -/
theorem mark_memory_first_amended (uid : Uid) (s : UidStore)
    (h : uid ∉ s.cache) :
    is_uid_processed (mark_uid_as_processed false uid s).1 uid = true
    ∧ (mark_uid_as_processed false uid s).1.file = s.file := by
  refine ⟨is_uid_processed_iff _ _ |>.mpr (mark_mem_self _ _ _), ?_⟩
  unfold mark_uid_as_processed
  rw [if_neg (by simpa using fun hc => h (List.elem_iff.mp hc))]
  rfl

/-- Witness for the amended C2 theorem at a concrete store. -/
theorem mark_memory_first_amended_witness :
    is_uid_processed (mark_uid_as_processed false ['9'] ⟨[['2']], [['2']]⟩).1 ['9'] = true
    ∧ (mark_uid_as_processed false ['9'] ⟨[['2']], [['2']]⟩).1.file = [['2']] :=
  mark_memory_first_amended ['9'] ⟨[['2']], [['2']]⟩ (by decide)

/-! ## Claim C5 — idempotence of marking -/

/-- C5: marking the same fresh uid twice (with the durable append
succeeding) persists exactly one line for it, and the second call performs
no file write at all (`processed_uids.py` lines 41-46: the `else` branch
skips `_add_uid_to_file`). -/
theorem mark_twice_single_line (uid : Uid) (s : UidStore)
    (hc : uid ∉ s.cache) (hf : s.file.count uid = 0) :
    (mark_uid_as_processed true uid
      (mark_uid_as_processed true uid s).1).1.file.count uid = 1
    ∧ (mark_uid_as_processed true uid (mark_uid_as_processed true uid s).1).2 = 0 := by
  have h1 : (mark_uid_as_processed true uid s).1
      = { s with cache := uid :: s.cache, file := s.file ++ [uid] } := by
    unfold mark_uid_as_processed addUidToFile
    rw [if_neg (by simpa using fun h => hc (List.elem_iff.mp h))]
    rfl
  rw [h1]
  unfold mark_uid_as_processed
  rw [if_pos (by simp)]
  refine ⟨?_, rfl⟩
  simp [List.count_append, hf]

/-- Witness for C5 at a concrete store. -/
theorem mark_twice_single_line_witness :
    (mark_uid_as_processed true ['4']
      (mark_uid_as_processed true ['4'] ⟨[['2']], [['2']]⟩).1).1.file.count ['4'] = 1
    ∧ (mark_uid_as_processed true ['4']
        (mark_uid_as_processed true ['4'] ⟨[['2']], [['2']]⟩).1).2 = 0 :=
  mark_twice_single_line ['4'] ⟨[['2']], [['2']]⟩ (by decide) (by decide)

/-! ## Claim C9 — layout of the durable log as read back -/

/-- C9 counterexample: a log whose final line `34` is not terminated by a
newline.  Python's `for line in f` still yields that trailing partial
line, it strips to a non-empty string, and it IS loaded into the in-memory
set — contradicting the claim that an incomplete final line is ignored. -/
theorem load_trailing_partial_cex :
    ['3', '4'] ∈ load_processed_uids (some ['1', '2', '\n', '3', '4']) := by
  decide

/-- C9 amended: loading treats the file as a newline-delimited sequence of
stripped identifier strings, skipping blank lines; a missing file yields
the empty set; and a trailing partial line not terminated by a newline is
loaded as well (it is not ignored). -/
theorem load_newline_delimited_amended :
    load_processed_uids none = []
    ∧ ∀ (pre u : List Char), '\n' ∉ u → pyStrip u ≠ [] →
        load_processed_uids (some (pre ++ '\n' :: u))
          = load_processed_uids (some pre) ++ [pyStrip u] := by
  refine ⟨rfl, fun pre u hn hs => ?_⟩
  show ((splitNl (pre ++ '\n' :: u)).map pyStrip).filter (· ≠ [])
      = ((splitNl pre).map pyStrip).filter (· ≠ []) ++ [pyStrip u]
  rw [splitNl_append, splitNl_no_newline u hn]
  simp [hs]

/-- Witness for the amended C9 theorem on the concrete log `12\n34`. -/
theorem load_newline_delimited_amended_witness :
    load_processed_uids (some (['1', '2'] ++ '\n' :: ['3', '4']))
      = load_processed_uids (some ['1', '2']) ++ [pyStrip ['3', '4']] :=
  load_newline_delimited_amended.2 ['1', '2'] ['3', '4'] (by decide) (by decide)

/-! ## Claim C4 — classifier fallback on error or invalid category -/

/-- C4: for every input, the classifier's result is one of the four
enumerated categories; if the external call raises, or returns text that
strips to something outside the vocabulary, the result is the fallback
category `Promotions` and no error propagates (the function is total). -/
theorem classify_fallback_total (init : Bool) (sender subject body : String)
    (r : GeminiResult) :
    (classify_email_with_gemini init sender subject body r).1 ∈ VALID_CATEGORIES
    ∧ (r = .failure →
        (classify_email_with_gemini init sender subject body r).1 = "Promotions")
    ∧ (∀ t, r = .success t → pyStripS t ∉ VALID_CATEGORIES →
        (classify_email_with_gemini init sender subject body r).1 = "Promotions") := by
  rcases r with t | _ <;> cases init <;>
    · unfold classify_email_with_gemini
      refine ⟨?_, ?_, ?_⟩ <;> split_ifs <;> simp_all [VALID_CATEGORIES] <;>
        split_ifs <;> simp_all

/-- Witness for C4: a raising call and an invalid-category response both
fall back to `Promotions`. -/
theorem classify_fallback_total_witness :
    (classify_email_with_gemini true "a@b" "hi" "text" .failure).1 = "Promotions"
    ∧ (classify_email_with_gemini true "a@b" "hi" "text" (.success "Junk!")).1
        = "Promotions" :=
  ⟨(classify_fallback_total true "a@b" "hi" "text" .failure).2.1 rfl,
   (classify_fallback_total true "a@b" "hi" "text" (.success "Junk!")).2.2
     "Junk!" rfl (by decide)⟩

/-! ## Claim C8 — empty subject and body short-circuit -/

/-- C8: for every sender and every oracle outcome, an email with empty
subject and empty body is classified as the default category `Promotions`
without the external call being made (`gemini_client.py` lines 77-79). -/
theorem classify_empty_no_call (init : Bool) (sender : String) (r : GeminiResult) :
    classify_email_with_gemini init sender "" "" r = ("Promotions", false) := by
  cases init <;> rfl

/-! ## Claim C10 — failed unseen search behaves like an empty mailbox -/

/-- C10: if the unseen search returns a non-`OK` status,
`get_new_email_uids` returns the empty list (`imap_client.py` lines
121-123), and the batch loop over that list issues nothing, marks nothing
and leaves the identity store unchanged — the cycle falls through to its
sleep. -/
theorem search_not_ok_empty (typ : String) (data₀ : List Char)
    (envOf : Uid → ProcEnv) (ap : Uid → Bool) (s : UidStore)
    (h : typ ≠ "OK") :
    get_new_email_uids typ data₀ = []
    ∧ runBatch envOf ap s (get_new_email_uids typ data₀) = (s, []) := by
  have he : get_new_email_uids typ data₀ = [] := by
    unfold get_new_email_uids
    rw [if_pos h]
  exact ⟨he, by rw [he]; rfl⟩

/-- Witness for C10 at a concrete failed search. -/
theorem search_not_ok_empty_witness :
    get_new_email_uids "NO" ['1', ' ', '2'] = []
    ∧ runBatch (fun _ => envStayEx) (fun _ => true) ⟨[], []⟩
        (get_new_email_uids "NO" ['1', ' ', '2']) = (⟨[], []⟩, []) :=
  search_not_ok_empty "NO" ['1', ' ', '2'] (fun _ => envStayEx) (fun _ => true)
    ⟨[], []⟩ (by decide)

/-! ## Claim C1 — atomicity of intent of the move operation -/

/-- C1: `move_email` reports success exactly when copy, `\Deleted` store
and expunge all return `'OK'`; when the copy step fails (non-`OK` status
or raised exception) nothing beyond the copy is issued — in particular no
`\Deleted` store and no expunge — the whole processing of that message
reports failure, and its identifier is never committed to the identity
store by the batch loop. -/
theorem move_email_atomicity :
    (∀ c : MoveConn,
      (move_email (some c)).1 = true ↔
        c.copyOutcome = .ret "OK" ∧ c.storeDeletedOutcome = .ret "OK"
          ∧ c.expungeOutcome = .ret "OK")
    ∧ (∀ c : MoveConn, c.copyOutcome ≠ .ret "OK" →
        (move_email (some c)).2 = [.copyEff])
    ∧ (∀ (env : ProcEnv) (msg : Msg) (dest : String),
        env.fetchOutcome = .ret "OK" →
        firstTuplePart env.parts = some msg →
        FOLDER_MAPPING (classify_email_with_gemini env.geminiInit
          msg.sender msg.subject msg.body env.geminiResult).1 = some dest →
        dest ≠ SOURCE_INBOX →
        env.copyOutcome ≠ .ret "OK" →
        (process_single_email env).1 = false
        ∧ Effect.storeDeletedEff ∉ (process_single_email env).2
        ∧ Effect.expungeEff ∉ (process_single_email env).2)
    ∧ (∀ (envOf : Uid → ProcEnv) (ap : Uid → Bool) (s : UidStore)
        (uids : List Uid) (i : Uid),
        i ∉ s.cache → (process_single_email (envOf i)).1 = false →
        i ∉ (runBatch envOf ap s uids).1.cache) := by
  refine ⟨move_email_success_iff_aux,
    fun c h => by rw [move_email_copy_fail_aux c h], ?_, ?_⟩
  · intro env msg dest hf hm hd hne hc
    have hps : process_single_email env =
        (false, ([Effect.fetch, Effect.unsetSeen]
          ++ (if (classify_email_with_gemini env.geminiInit
              msg.sender msg.subject msg.body env.geminiResult).2
            then [Effect.geminiCall] else [])) ++ [Effect.copyEff]) := by
      rw [process_classified_aux env msg hf hm]
      dsimp only
      rw [hd]
      dsimp only
      rw [if_neg hne,
        move_email_copy_fail_aux ⟨env.copyOutcome, env.storeDeletedOutcome,
          env.expungeOutcome⟩ hc]
      rfl
    rw [hps]
    cases hcall : (classify_email_with_gemini env.geminiInit
        msg.sender msg.subject msg.body env.geminiResult).2 <;> decide
  · intro envOf ap s uids i hi hp hmem
    rcases runBatch_cache_origin envOf ap uids s i hmem with h | h
    · exact hi h
    · rw [hp] at h
      cases h

/-- Witness for C1 at a concrete session whose copy step returns `NO`. -/
theorem move_email_atomicity_witness :
    (process_single_email envMoveCopyFailEx).1 = false
    ∧ Effect.storeDeletedEff ∉ (process_single_email envMoveCopyFailEx).2
    ∧ Effect.expungeEff ∉ (process_single_email envMoveCopyFailEx).2 :=
  move_email_atomicity.2.2.1 envMoveCopyFailEx msgSpamEx "INBOX.spam"
    rfl rfl (by decide) (by decide) (by decide)

/-! ## Claim C3 — processed identifiers are never re-attempted -/

/-- C3: any identifier already in the identity store when the batch starts
is skipped by the cycle: it never appears in the trace of attempted uids,
so no fetch, classification or move is issued for it.  Instantiating the
initial store with `load_processed_uids` of the durable log gives the
first-scan-after-restart case. -/
theorem processed_uid_never_reattempted (envOf : Uid → ProcEnv)
    (ap : Uid → Bool) (s : UidStore) (uids : List Uid) (i : Uid)
    (hi : is_uid_processed s i = true) :
    i ∉ ((runBatch envOf ap s uids).2.map fun e => e.1) := by
  induction uids generalizing s with
  | nil =>
    unfold runBatch
    simp
  | cons uid rest ih =>
    unfold runBatch
    split
    · exact ih s hi
    · rename_i hskip
      dsimp only
      have hs' : is_uid_processed
          (if (process_single_email (envOf uid)).1
            then (mark_uid_as_processed (ap uid) uid s).1 else s) i = true := by
        split
        · exact (is_uid_processed_iff _ _).mpr
            (mark_cache_mono _ _ _ _ ((is_uid_processed_iff _ _).mp hi))
        · exact hi
      simp only [List.map_cons, List.mem_cons, not_or]
      exact ⟨fun he => hskip (he ▸ hi), ih _ hs'⟩

/-- Witness for C3: uid `5`, already in the store, is absent from the
trace of a cycle whose unseen list contains it. -/
theorem processed_uid_never_reattempted_witness :
    ['5'] ∉ ((runBatch (fun _ => envStayEx) (fun _ => true)
      ⟨[['5']], [['5']]⟩ [['5'], ['6']]).2.map fun e => e.1) :=
  processed_uid_never_reattempted (fun _ => envStayEx) (fun _ => true)
    ⟨[['5']], [['5']]⟩ [['5'], ['6']] ['5'] (by decide)

/-! ## Claim C6 — behaviour on a connection-fatal error mid-batch -/

/-- C6 counterexample: uid `1` hits a connection-fatal exception
(`imaplib.IMAP4.abort`) during its fetch, yet the batch is not abandoned:
uid `2` is still fetched, classified and processed on the same session,
because `process_single_email` catches every exception internally
(`email_processor.py` lines 14-21) and `main.py`'s per-uid loop (lines
105-119) just moves on to the next uid — contradicting the claim that the
remaining identifiers are abandoned and the loop transitions directly to
the disconnected state. -/
theorem connection_fatal_continues_cex :
    runBatch cexBatchEnv (fun _ => true) ⟨[], []⟩ [['1'], ['2']]
      = (⟨[['2']], [['2']]⟩,
         [(['1'], false, [.fetch]),
          (['2'], true, [.fetch, .unsetSeen, .geminiCall, .sleep])]) := by
  decide

/-- C6 amended: a connection-fatal error raised while processing a message
is caught inside `process_single_email`, which reports failure for that
message (it is not marked processed); the batch then continues with the
remaining identifiers on the same session and store, exactly as if only
that one message had failed.  The session is discarded only by the
top-level handler, which no per-message error reaches. -/
theorem connection_fatal_continues_amended (envOf : Uid → ProcEnv)
    (ap : Uid → Bool) (s : UidStore) (uid : Uid) (rest : List Uid) (b : Bool)
    (hb : (envOf uid).fetchOutcome = .raise b)
    (hskip : is_uid_processed s uid = false) :
    runBatch envOf ap s (uid :: rest)
      = ((runBatch envOf ap s rest).1,
         (uid, false, [.fetch]) :: (runBatch envOf ap s rest).2) := by
  simp only [runBatch]
  rw [if_neg (by simp [hskip]), process_fetch_raise_aux (envOf uid) b hb]
  simp

/-- Witness for the amended C6 theorem on the concrete two-uid batch. -/
theorem connection_fatal_continues_amended_witness :
    runBatch cexBatchEnv (fun _ => true) ⟨[], []⟩ [['1'], ['2']]
      = ((runBatch cexBatchEnv (fun _ => true) ⟨[], []⟩ [['2']]).1,
         (['1'], false, [.fetch])
           :: (runBatch cexBatchEnv (fun _ => true) ⟨[], []⟩ [['2']]).2) :=
  connection_fatal_continues_amended cexBatchEnv (fun _ => true) ⟨[], []⟩
    ['1'] [['2']] true (by decide) (by decide)

/-! ## Claim C7 — destination equals source: stay side effect only -/

/-- C7: when the classified category maps to the source folder, processing
succeeds with no copy, no `\Deleted` store and no expunge issued; the only
session mutation is the explicit unseen restore after the fetch
(`email_processor.py` lines 28-33, 57-58), and the identifier is committed
to the identity store by the batch loop. -/
theorem stay_in_source_frame (env : ProcEnv) (msg : Msg)
    (hf : env.fetchOutcome = .ret "OK")
    (hm : firstTuplePart env.parts = some msg)
    (hd : FOLDER_MAPPING (classify_email_with_gemini env.geminiInit
      msg.sender msg.subject msg.body env.geminiResult).1 = some SOURCE_INBOX) :
    (process_single_email env).1 = true
    ∧ Effect.copyEff ∉ (process_single_email env).2
    ∧ Effect.storeDeletedEff ∉ (process_single_email env).2
    ∧ Effect.expungeEff ∉ (process_single_email env).2
    ∧ Effect.unsetSeen ∈ (process_single_email env).2
    ∧ ∀ (envOf : Uid → ProcEnv) (ap : Uid → Bool) (s : UidStore)
        (uid : Uid) (rest : List Uid),
        envOf uid = env →
        uid ∈ (runBatch envOf ap s (uid :: rest)).1.cache := by
  have hps : process_single_email env =
      (true, ([Effect.fetch, Effect.unsetSeen]
        ++ (if (classify_email_with_gemini env.geminiInit
            msg.sender msg.subject msg.body env.geminiResult).2
          then [Effect.geminiCall] else [])) ++ [Effect.sleep]) := by
    rw [process_classified_aux env msg hf hm]
    dsimp only
    rw [hd]
    dsimp only
    rw [if_pos rfl]
  refine ⟨by rw [hps], ?_, ?_, ?_, ?_, ?_⟩
  · rw [hps]
    cases hcall : (classify_email_with_gemini env.geminiInit
        msg.sender msg.subject msg.body env.geminiResult).2 <;> decide
  · rw [hps]
    cases hcall : (classify_email_with_gemini env.geminiInit
        msg.sender msg.subject msg.body env.geminiResult).2 <;> decide
  · rw [hps]
    cases hcall : (classify_email_with_gemini env.geminiInit
        msg.sender msg.subject msg.body env.geminiResult).2 <;> decide
  · rw [hps]
    cases hcall : (classify_email_with_gemini env.geminiInit
        msg.sender msg.subject msg.body env.geminiResult).2 <;> decide
  · intro envOf ap s uid rest henv
    unfold runBatch
    split
    · rename_i hsk
      exact runBatch_cache_mono _ _ rest s uid ((is_uid_processed_iff s uid).mp hsk)
    · dsimp only
      rw [henv, hps]
      exact runBatch_cache_mono _ _ rest _ uid (mark_mem_self _ _ _)

/-- Witness for C7 on the `Personal`-classified message (whose mapped
folder is the source inbox). -/
theorem stay_in_source_frame_witness :
    (process_single_email envStayEx).1 = true
    ∧ Effect.copyEff ∉ (process_single_email envStayEx).2
    ∧ ['8'] ∈ (runBatch (fun _ => envStayEx) (fun _ => true) ⟨[], []⟩
        [['8']]).1.cache := by
  have h := stay_in_source_frame envStayEx msgStayEx rfl rfl (by decide)
  exact ⟨h.1, h.2.1,
    h.2.2.2.2.2 (fun _ => envStayEx) (fun _ => true) ⟨[], []⟩ ['8'] [] rfl⟩

end Mailbot
